import Mathlib

/-!
# flappyCircle: the per-frame simulation of `Renderer`

A shallow embedding of `flappyCircle.Shared/Renderer.cpp` (class `Renderer`,
declared in `Renderer.h`) and theorems about its frame step `Renderer::Draw`.

Modelling conventions.

* `GLfloat` is modelled by `ℚ`: arithmetic is taken as exact, the decimal
  literals of the source (`0.012f`, `2.5f`, ...) denote the rationals they
  spell.
* The object's scalar members `click`, `failFlag`, `mProgram`, `down`,
  `xMoveStep`, `randomHeight` are the fields of the structure `Renderer`.
  GL-side state (buffers, attribute and uniform locations, the viewport) is
  not tracked; instead every `Load*` function returns the geometry it submits
  to `glDrawArrays`, so that `Draw` yields the list of geometries of a frame.
* `MathHelper::get_random` lives in `MathHelper.h`, which is not part of the
  sources at hand; the frame step takes it as a parameter
  `get_random : GLfloat → GLfloat → GLfloat` (the value the call returns in
  this frame for the given bounds).
-/

/-- Exact stand-in for the C type `GLfloat`. -/
abbrev GLfloat := ℚ

/-- A vertex `(x, y, z)` of a position buffer. -/
abbrev Vertex := GLfloat × GLfloat × GLfloat

/-- What one `Load*` call submits to `glDrawArrays`. -/
inductive Geometry where
  /-- Submitted by `LoadFail`: `GL_TRIANGLES` over the 6 vertices of the flat rectangle. -/
  | failMarker (vertexPositions : List Vertex)
  /-- Submitted by `LoadColumn`: `GL_TRIANGLES` over the 12 vertices of the two columns. -/
  | columnPair (vertexPositions : List Vertex)
  /-- Submitted by `LoadCircle`: `GL_POINTS` over the 361 points generated from
  the centre and the radius (the point cloud itself goes through `sin`/`cos`
  and is represented by its generating parameters). -/
  | circle (center_x center_y center_z radius : GLfloat)
deriving DecidableEq

/-- The scalar members of `class Renderer` (`Renderer.h`). -/
structure Renderer where
  click : Bool
  failFlag : Bool
  mProgram : Nat
  down : GLfloat
  xMoveStep : GLfloat
  randomHeight : GLfloat
deriving DecidableEq

namespace Renderer

/-- The position buffer built at the top of `Renderer::LoadFail`. -/
def failVertexPositions : List Vertex :=
  [ (1.0, 2.0, 0.0),
    (-1.0, 2.0, 0.0),
    (-1.0, -2.0, 0.0),
    (-1.0, -2.0, 0.0),
    (1.0, -2.0, 0.0),
    (1.0, 2.0, 0.0) ]

/-- Embedding of `Renderer::LoadFail`: submits the fail rectangle; no scalar
member changes. -/
def LoadFail (s : Renderer) : Renderer × Geometry :=
  (s, Geometry.failMarker failVertexPositions)

/-- The position buffer built at the top of `Renderer::LoadColumn`. -/
def columnVertexPositions (s : Renderer) : List Vertex :=
  [ -- First column
    (1.5 - s.xMoveStep, 1.0, 0.0),
    (1.0 - s.xMoveStep, 1.0, 0.0),
    (1.0 - s.xMoveStep, 1.0 - s.randomHeight, 0.0),
    (1.0 - s.xMoveStep, 1.0 - s.randomHeight, 0.0),
    (1.5 - s.xMoveStep, 1.0 - s.randomHeight, 0.0),
    (1.5 - s.xMoveStep, 1.0, 0.0),
    -- Second column
    (1.5 - s.xMoveStep, 1.0 - s.randomHeight - 0.5, 0.0),
    (1.0 - s.xMoveStep, 1.0 - s.randomHeight - 0.5, 0.0),
    (1.0 - s.xMoveStep, -1.5, 0.0),
    (1.0 - s.xMoveStep, -1.5, 0.0),
    (1.5 - s.xMoveStep, -1.5, 0.0),
    (1.5 - s.xMoveStep, 1.0 - s.randomHeight - 0.5, 0.0) ]

/-- Embedding of `Renderer::LoadColumn(x, y)`: submits the two columns at the current
`xMoveStep`/`randomHeight`, then advances `xMoveStep` by `0.012`, wrapping to
`0.01` with a fresh `randomHeight` once it reaches `2.5`. The arguments `x`
and `y` are unused, as in the source. -/
def LoadColumn (get_random : GLfloat → GLfloat → GLfloat) (_x _y : GLfloat)
    (s : Renderer) : Renderer × Geometry :=
  let g := Geometry.columnPair (columnVertexPositions s)
  let s1 := { s with xMoveStep := s.xMoveStep + 0.012 }
  if s1.xMoveStep ≥ 2.5 then
    ({ s1 with xMoveStep := 0.01, randomHeight := get_random 0.0 1.8 }, g)
  else
    (s1, g)

/-- Embedding of `Renderer::LoadCircle(center_x, center_y, center_z, radius)`:
submits the point cloud, then moves `down` by `-0.03` (consuming `click`) or by `+0.02`. -/
def LoadCircle (center_x center_y center_z radius : GLfloat)
    (s : Renderer) : Renderer × Geometry :=
  let g := Geometry.circle center_x center_y center_z radius
  if s.click then
    ({ s with down := s.down - 0.03, click := false }, g)
  else
    ({ s with down := s.down + 0.02 }, g)

/-- The collision half of the condition at the top of `Renderer::Draw`
(everything to the right of `failFlag ||`). -/
def collides (s : Renderer) : Prop :=
  let circleRadius : GLfloat := 0.05
  let circleXPos : GLfloat := -0.5
  (-s.down + circleRadius ≥ 1.0 - s.randomHeight
    ∨ -s.down - circleRadius ≤ 1.0 - s.randomHeight - 0.5)
  ∧ ¬ (1.0 - s.xMoveStep + 0.5 ≤ circleXPos - circleRadius)
  ∧ ¬ (1.0 - s.xMoveStep ≥ circleXPos + circleRadius)

instance (s : Renderer) : Decidable (collides s) := by
  unfold collides; infer_instance

/-- Embedding of `Renderer::Draw`: one frame. Returns the new members and the geometries
submitted, in order. -/
def Draw (get_random : GLfloat → GLfloat → GLfloat) (s : Renderer) :
    Renderer × List Geometry :=
  let circleRadius : GLfloat := 0.05
  let circleXPos : GLfloat := -0.5
  if s.mProgram = 0 then
    (s, [])
  else if s.failFlag = true ∨ collides s then
    let s1 := { s with failFlag := true, xMoveStep := 0.0, down := 0.0 }
    let r := LoadFail s1
    (r.1, [r.2])
  else
    let r1 := LoadCircle circleXPos (-s.down) 0.0 circleRadius s
    let r2 := LoadColumn get_random 0.0 0.0 r1.1
    (r2.1, [r1.2, r2.2])

/-- Modelled from the spec: the host's tap handler is not among the sources;
`NotifyTap()` "sets `tapPending = true`", i.e. assigns the public member
`click`. -/
def NotifyTap (s : Renderer) : Renderer :=
  { s with click := true }

/-! ## Path conditions of `Draw` -/

/-- Path condition of the normal branch of `Draw` (lines 373-374 are reached):
the program handle is non-zero, `failFlag` is clear and the collision test is
negative. -/
def playing (s : Renderer) : Prop :=
  s.mProgram ≠ 0 ∧ s.failFlag = false ∧ ¬ collides s

instance (s : Renderer) : Decidable (playing s) := by
  unfold playing; infer_instance

/-- Path condition of the wrap branch of `LoadColumn` inside `Draw` (lines
276-277 are reached): a playing frame whose advanced `xMoveStep` is `≥ 2.5`. -/
def wraps (s : Renderer) : Prop :=
  playing s ∧ s.xMoveStep + 0.012 ≥ 2.5

instance (s : Renderer) : Decidable (wraps s) := by
  unfold wraps; infer_instance

/-- The members after the two calls of the normal branch of `Draw`. -/
def advance (get_random : GLfloat → GLfloat → GLfloat) (s : Renderer) : Renderer :=
  (LoadColumn get_random 0.0 0.0 (LoadCircle (-0.5) (-s.down) 0.0 0.05 s).1).1

/-! ## Sequences of calls -/

/-- A call of the host into the renderer: a tap notification, or a frame
together with what `MathHelper::get_random` returns during that frame. -/
inductive Event where
  | tap
  | draw (get_random : GLfloat → GLfloat → GLfloat)

/-- The members after one call. -/
def step (s : Renderer) : Event → Renderer
  | Event.tap => NotifyTap s
  | Event.draw g => (Draw g s).1

/-- The members after a sequence of calls, oldest first. -/
def run (s : Renderer) (evs : List Event) : Renderer :=
  evs.foldl step s

/-- Number of `Draw` calls in a sequence. -/
def frameCount : List Event → Nat
  | [] => 0
  | Event.tap :: evs => frameCount evs
  | Event.draw _ :: evs => frameCount evs + 1

/-- Number of `Draw` calls of the sequence, started in `s`, that take the wrap
branch of `LoadColumn`. -/
def wrapCount (s : Renderer) : List Event → Nat
  | [] => 0
  | Event.tap :: evs => wrapCount (step s Event.tap) evs
  | Event.draw g :: evs =>
      (if wraps s then 1 else 0) + wrapCount (step s (Event.draw g)) evs

/-- Every `Draw` call of the sequence, started in `s`, finds the collision
test negative. -/
def noCollision (s : Renderer) : List Event → Prop
  | [] => True
  | Event.tap :: evs => noCollision (step s Event.tap) evs
  | Event.draw g :: evs => ¬ collides s ∧ noCollision (step s (Event.draw g)) evs

/-! ## Construction and reachable states -/

/-- Embedding of the constructor `Renderer::Renderer` (lines 91-133), for the
case where it returns: `program` is the handle returned by `CompileProgram`
(which may be `0`, line 60) and `get_random` the random source at that time. -/
def construct (program : Nat) (get_random : GLfloat → GLfloat → GLfloat) : Renderer :=
  { click := false
    failFlag := false
    mProgram := program
    down := 0.0
    xMoveStep := 0.0
    randomHeight := get_random 0.0 1.8 }

/-- A state the renderer can be in: obtained from the constructor by a finite
sequence of `NotifyTap` and `Draw` calls. -/
def Reachable (s : Renderer) : Prop :=
  ∃ (program : Nat) (g : GLfloat → GLfloat → GLfloat) (evs : List Event),
    s = run (construct program g) evs

/-- The sequence of `k` frames without taps. -/
def fallFrames (g : GLfloat → GLfloat → GLfloat) : Nat → List Event
  | 0 => []
  | k + 1 => Event.draw g :: fallFrames g k

/-- The sequence of `k` frames, each preceded by a tap. -/
def riseFrames (g : GLfloat → GLfloat → GLfloat) : Nat → List Event
  | 0 => []
  | k + 1 => Event.tap :: Event.draw g :: riseFrames g k

/-! ## The obstacle sweep in closed form -/

/-- Value of `xMoveStep` after `n` playing frames started at `xMoveStep = 0`:
`0.012 * n` up to frame 208, then `0.01` on frame 209 and on every 208th frame
after it, growing by `0.012` in between. -/
def sweep (n : Nat) : GLfloat :=
  if n ≤ 208 then 0.012 * n else 0.01 + 0.012 * ((n - 209) % 208 : Nat)

/-- A random source that always returns `0.75`. -/
def hoverRandom : GLfloat → GLfloat → GLfloat := fun _ _ => 0.75

/-- Five frames that bring `down` back to where it started: two tapped frames
(`-0.03` each) and three falling frames (`+0.02` each). -/
def hoverPattern : List Event :=
  [Event.tap, Event.draw hoverRandom, Event.tap, Event.draw hoverRandom,
   Event.draw hoverRandom, Event.draw hoverRandom, Event.draw hoverRandom]

/-- The hover pattern repeated `k` times. -/
def hover : Nat → List Event
  | 0 => []
  | k + 1 => hoverPattern ++ hover k

/-- A playing state with no pending tap, `down = d` and `randomHeight = 0.75`
(gap band `[-0.25, 0.25]`). -/
def hovering (d : GLfloat) (t : Renderer) : Prop :=
  t.mProgram ≠ 0 ∧ t.failFlag = false ∧ t.click = false ∧ t.down = d
    ∧ t.randomHeight = 0.75

/-- The start state of the hovering runs. -/
def hoverStart : Renderer := ⟨false, false, 1, 0, 0, 0.75⟩

/-- A run of 208 frames: 41 hover patterns, then three falling frames. -/
def frames208 : List Event :=
  hover 41 ++ [Event.draw hoverRandom, Event.draw hoverRandom, Event.draw hoverRandom]

/-- A run of 209 frames: `frames208` and one more falling frame. -/
def frames209 : List Event :=
  frames208 ++ [Event.draw hoverRandom]

/-! ## Reading the column geometry -/

/-- The `y` coordinates of a list of vertices. -/
def ys (v : List Vertex) : List GLfloat :=
  v.map (fun p => p.2.1)

/-- Lowest `y` of a non-empty list of vertices (`0` for the empty list). -/
def bottomEdge (v : List Vertex) : GLfloat :=
  match ys v with
  | [] => 0
  | y :: rest => rest.foldl min y

/-- Highest `y` of a non-empty list of vertices (`0` for the empty list). -/
def topEdge (v : List Vertex) : GLfloat :=
  match ys v with
  | [] => 0
  | y :: rest => rest.foldl max y

/-- The first rectangle of the column buffer (`glDrawArrays(GL_TRIANGLES, 0, 6)`). -/
def upperSegment (v : List Vertex) : List Vertex := v.take 6

/-- The second rectangle of the column buffer (`glDrawArrays(GL_TRIANGLES, 6, 6)`). -/
def lowerSegment (v : List Vertex) : List Vertex := (v.drop 6).take 6

/-- Vertical distance between the bottom edge of the upper segment and the top
edge of the lower segment. -/
def gapSize (v : List Vertex) : GLfloat :=
  bottomEdge (upperSegment v) - topEdge (lowerSegment v)

/-! ## The three paths of `Draw` -/

theorem LoadCircle_geometry (cx cy cz r : GLfloat) (s : Renderer) :
    (LoadCircle cx cy cz r s).2 = Geometry.circle cx cy cz r := by
  unfold LoadCircle; split <;> rfl

theorem LoadColumn_geometry (g : GLfloat → GLfloat → GLfloat) (x y : GLfloat) (s : Renderer) :
    (LoadColumn g x y s).2 = Geometry.columnPair (columnVertexPositions s) := by
  unfold LoadColumn; simp only []; split <;> rfl

theorem Draw_noProgram (g : GLfloat → GLfloat → GLfloat) (s : Renderer)
    (hp : s.mProgram = 0) : Draw g s = (s, []) := by
  simp [Draw, hp]

theorem Draw_fail (g : GLfloat → GLfloat → GLfloat) (s : Renderer)
    (hp : s.mProgram ≠ 0) (h : s.failFlag = true ∨ collides s) :
    Draw g s = ({ s with failFlag := true, xMoveStep := 0, down := 0 },
      [Geometry.failMarker failVertexPositions]) := by
  simp only [Draw, if_neg hp, if_pos h, LoadFail]
  norm_num

theorem Draw_playing (g : GLfloat → GLfloat → GLfloat) (s : Renderer)
    (h : playing s) :
    Draw g s = (advance g s,
      [Geometry.circle (-0.5) (-s.down) 0.0 0.05,
       Geometry.columnPair (columnVertexPositions (LoadCircle (-0.5) (-s.down) 0.0 0.05 s).1)]) := by
  obtain ⟨hp, hf, hc⟩ := h
  have h' : ¬ (s.failFlag = true ∨ collides s) := by
    rintro (h | h)
    · simp [hf] at h
    · exact hc h
  simp only [Draw, if_neg hp, if_neg h', advance, LoadCircle_geometry, LoadColumn_geometry]

/-! ## The members after a playing frame -/

theorem advance_down (g : GLfloat → GLfloat → GLfloat) (s : Renderer) :
    (advance g s).down = if s.click = true then s.down - 0.03 else s.down + 0.02 := by
  by_cases hc : s.click = true <;> by_cases hx : s.xMoveStep + 0.012 ≥ 2.5 <;>
    simp [advance, LoadColumn, LoadCircle, hc, hx]

theorem advance_click (g : GLfloat → GLfloat → GLfloat) (s : Renderer) :
    (advance g s).click = false := by
  by_cases hc : s.click = true <;> by_cases hx : s.xMoveStep + 0.012 ≥ 2.5 <;>
    simp [advance, LoadColumn, LoadCircle, hc, hx]

theorem advance_failFlag (g : GLfloat → GLfloat → GLfloat) (s : Renderer) :
    (advance g s).failFlag = s.failFlag := by
  by_cases hc : s.click = true <;> by_cases hx : s.xMoveStep + 0.012 ≥ 2.5 <;>
    simp [advance, LoadColumn, LoadCircle, hc, hx]

theorem advance_mProgram (g : GLfloat → GLfloat → GLfloat) (s : Renderer) :
    (advance g s).mProgram = s.mProgram := by
  by_cases hc : s.click = true <;> by_cases hx : s.xMoveStep + 0.012 ≥ 2.5 <;>
    simp [advance, LoadColumn, LoadCircle, hc, hx]

theorem advance_xMoveStep (g : GLfloat → GLfloat → GLfloat) (s : Renderer) :
    (advance g s).xMoveStep
      = if s.xMoveStep + 0.012 ≥ 2.5 then 0.01 else s.xMoveStep + 0.012 := by
  by_cases hc : s.click = true <;> by_cases hx : s.xMoveStep + 0.012 ≥ 2.5 <;>
    simp [advance, LoadColumn, LoadCircle, hc, hx]

theorem advance_randomHeight (g : GLfloat → GLfloat → GLfloat) (s : Renderer) :
    (advance g s).randomHeight
      = if s.xMoveStep + 0.012 ≥ 2.5 then g 0.0 1.8 else s.randomHeight := by
  by_cases hc : s.click = true <;> by_cases hx : s.xMoveStep + 0.012 ≥ 2.5 <;>
    simp [advance, LoadColumn, LoadCircle, hc, hx]

/-! ## The collision test -/

theorem collides_iff (s : Renderer) :
    collides s ↔
      ((-s.down + 0.05 ≥ 1.0 - s.randomHeight
          ∨ -s.down - 0.05 ≤ 1.0 - s.randomHeight - 0.5)
        ∧ 1.45 < s.xMoveStep ∧ s.xMoveStep < 2.05) := by
  unfold collides
  simp only [not_le, ge_iff_le]
  constructor
  · rintro ⟨hv, h1, h2⟩
    refine ⟨hv, ?_, ?_⟩
    · norm_num at h2 ⊢; linarith
    · norm_num at h1 ⊢; linarith
  · rintro ⟨hv, h1, h2⟩
    refine ⟨hv, ?_, ?_⟩
    · norm_num at h2 ⊢; linarith
    · norm_num at h1 ⊢; linarith

theorem overlap_iff (x : GLfloat) :
    max (-0.55) (1.0 - x) < min (-0.45) (1.5 - x) ↔ 1.45 < x ∧ x < 2.05 := by
  rw [max_lt_iff, lt_min_iff, lt_min_iff]
  constructor
  · rintro ⟨⟨_, h1⟩, h2, _⟩
    constructor
    · norm_num at h2 ⊢; linarith
    · norm_num at h1 ⊢; linarith
  · rintro ⟨h1, h2⟩
    refine ⟨⟨by norm_num, ?_⟩, ?_, ?_⟩
    · norm_num at h2 ⊢; linarith
    · norm_num at h1 ⊢; linarith
    · norm_num

theorem Draw_failFlag_iff (g : GLfloat → GLfloat → GLfloat) (s : Renderer)
    (hp : s.mProgram ≠ 0) (hf : s.failFlag = false) :
    (Draw g s).1.failFlag = true ↔ collides s := by
  by_cases hc : collides s
  · rw [Draw_fail g s hp (Or.inr hc)]
    simp [hc]
  · rw [Draw_playing g s ⟨hp, hf, hc⟩]
    simp [advance_failFlag, hf, hc]

/-! ## Single-frame properties -/

/-- C1: from a state with `failFlag = false` and a non-zero program handle, one
`Draw` call latches `failFlag` exactly when the circle's vertical extent
`[-down - 0.05, -down + 0.05]` escapes the gap band
`[1.0 - randomHeight - 0.5, 1.0 - randomHeight]` and the circle's horizontal
extent `[-0.55, -0.45]` overlaps the column's extent
`[1.0 - xMoveStep, 1.5 - xMoveStep]` with positive width. -/
theorem Draw_latches_iff (g : GLfloat → GLfloat → GLfloat) (s : Renderer)
    (hf : s.failFlag = false) (hp : s.mProgram ≠ 0) :
    (Draw g s).1.failFlag = true ↔
      ((-s.down + 0.05 ≥ 1.0 - s.randomHeight
          ∨ -s.down - 0.05 ≤ 1.0 - s.randomHeight - 0.5)
        ∧ max (-0.55) (1.0 - s.xMoveStep) < min (-0.45) (1.5 - s.xMoveStep)) := by
  rw [Draw_failFlag_iff g s hp hf, collides_iff, overlap_iff]

theorem Draw_latches_iff_witness :
    (⟨false, false, 1, 0, 1.75, 0.9⟩ : Renderer).failFlag = false
    ∧ (⟨false, false, 1, 0, 1.75, 0.9⟩ : Renderer).mProgram ≠ 0
    ∧ ((Draw (fun _ _ => 0.9) ⟨false, false, 1, 0, 1.75, 0.9⟩).1.failFlag = true ↔
      ((-(0 : GLfloat) + 0.05 ≥ 1.0 - 0.9 ∨ -(0 : GLfloat) - 0.05 ≤ 1.0 - 0.9 - 0.5)
        ∧ max (-0.55) (1.0 - 1.75) < min (-0.45 : GLfloat) (1.5 - 1.75))) :=
  ⟨rfl, by decide, Draw_latches_iff (fun _ _ => 0.9) ⟨false, false, 1, 0, 1.75, 0.9⟩ rfl (by decide)⟩

/-- C4, as stated, fails when the program handle is zero: the call starts with
`failFlag = false`, the collision test would be negative, `xMoveStep + 0.012`
is below `2.5`, yet `Draw` returns before `LoadColumn` and `xMoveStep` keeps
its old value `0` instead of becoming `0.012`. -/
theorem Draw_xMoveStep_counterexample :
    (⟨false, false, 0, 0, 0, 0.9⟩ : Renderer).failFlag = false
    ∧ ¬ collides ⟨false, false, 0, 0, 0, 0.9⟩
    ∧ (0 : GLfloat) + 0.012 < 2.5
    ∧ (Draw (fun _ _ => 0.9) ⟨false, false, 0, 0, 0, 0.9⟩).1.xMoveStep ≠ 0 + 0.012 := by
  refine ⟨rfl, ?_, by norm_num, ?_⟩
  · rw [collides_iff]; norm_num
  · rw [Draw_noProgram _ _ rfl]; norm_num

/-- C4, amended: in every `Draw` call that starts with a non-zero program
handle and `failFlag = false` and finds the collision test negative, the new
`xMoveStep` is `old + 0.012` when `old + 0.012 < 2.5`, and is exactly `0.01`,
with `randomHeight` replaced by the value of `get_random(0.0, 1.8)`, when
`old + 0.012 ≥ 2.5`. -/
theorem Draw_xMoveStep (g : GLfloat → GLfloat → GLfloat) (s : Renderer)
    (hp : s.mProgram ≠ 0) (hf : s.failFlag = false) (hc : ¬ collides s) :
    (s.xMoveStep + 0.012 < 2.5 → (Draw g s).1.xMoveStep = s.xMoveStep + 0.012)
    ∧ (s.xMoveStep + 0.012 ≥ 2.5 →
        (Draw g s).1.xMoveStep = 0.01 ∧ (Draw g s).1.randomHeight = g 0.0 1.8) := by
  rw [Draw_playing g s ⟨hp, hf, hc⟩]
  constructor
  · intro h
    simp only [advance_xMoveStep, if_neg (not_le.mpr h)]
  · intro h
    simp only [advance_xMoveStep, advance_randomHeight, if_pos h, and_self]

theorem Draw_xMoveStep_witness :
    (⟨false, false, 1, 0, 2.49, 0.9⟩ : Renderer).mProgram ≠ 0
    ∧ (⟨false, false, 1, 0, 2.49, 0.9⟩ : Renderer).failFlag = false
    ∧ ¬ collides ⟨false, false, 1, 0, 2.49, 0.9⟩
    ∧ (Draw (fun _ _ => 1.2) ⟨false, false, 1, 0, 2.49, 0.9⟩).1.xMoveStep = 0.01
    ∧ (Draw (fun _ _ => 1.2) ⟨false, false, 1, 0, 2.49, 0.9⟩).1.randomHeight = 1.2 :=
  ⟨by decide, rfl, by rw [collides_iff]; norm_num,
    (Draw_xMoveStep (fun _ _ => 1.2) ⟨false, false, 1, 0, 2.49, 0.9⟩ (by decide) rfl
      (by rw [collides_iff]; norm_num)).2 (by norm_num)⟩

/-- C5: for every state and every `Draw` call (zero program handle, failed,
colliding or playing), unless the call is a playing frame with
`xMoveStep + 0.012 ≥ 2.5` (the wrap), `randomHeight` after the call equals
`randomHeight` before it, whatever `get_random` would return. -/
theorem Draw_randomHeight_of_not_wraps (g : GLfloat → GLfloat → GLfloat) (s : Renderer)
    (h : ¬ wraps s) : (Draw g s).1.randomHeight = s.randomHeight := by
  by_cases hp : s.mProgram = 0
  · rw [Draw_noProgram g s hp]
  · by_cases hfc : s.failFlag = true ∨ collides s
    · rw [Draw_fail g s hp hfc]
    · have hpl : playing s :=
        ⟨hp, by cases hs : s.failFlag <;> simp_all, fun hc => hfc (Or.inr hc)⟩
      rw [Draw_playing g s hpl, advance_randomHeight]
      have hx : ¬ (s.xMoveStep + 0.012 ≥ 2.5) := fun hx => h ⟨hpl, hx⟩
      simp only [if_neg hx]

theorem Draw_randomHeight_of_not_wraps_witness :
    ¬ wraps ⟨false, false, 1, 0, 1.2, 0.9⟩
    ∧ (Draw (fun _ _ => 1.2) ⟨false, false, 1, 0, 1.2, 0.9⟩).1.randomHeight = 0.9 :=
  ⟨by unfold wraps; norm_num,
    Draw_randomHeight_of_not_wraps (fun _ _ => 1.2) ⟨false, false, 1, 0, 1.2, 0.9⟩
      (by unfold wraps; norm_num)⟩

theorem collides_NotifyTap (s : Renderer) : collides (NotifyTap s) ↔ collides s :=
  Iff.rfl

/-- C6, as stated, fails when the program handle is zero: the call starts with
`failFlag = false` and a pending tap, the collision test would be negative,
yet `Draw` returns before `LoadCircle`: `down` receives neither step and
`click` is still `true` after the call. -/
theorem Draw_down_counterexample :
    (⟨true, false, 0, 0, 0, 0.9⟩ : Renderer).failFlag = false
    ∧ ¬ collides ⟨true, false, 0, 0, 0, 0.9⟩
    ∧ (Draw (fun _ _ => 0.9) ⟨true, false, 0, 0, 0, 0.9⟩).1.down ≠ 0 - 0.03
    ∧ (Draw (fun _ _ => 0.9) ⟨true, false, 0, 0, 0, 0.9⟩).1.down ≠ 0 + 0.02
    ∧ (Draw (fun _ _ => 0.9) ⟨true, false, 0, 0, 0, 0.9⟩).1.click = true := by
  refine ⟨rfl, ?_, ?_, ?_, ?_⟩
  · rw [collides_iff]; norm_num
  · rw [Draw_noProgram _ _ rfl]; norm_num
  · rw [Draw_noProgram _ _ rfl]; norm_num
  · rw [Draw_noProgram _ _ rfl]

/-- C6, amended: in every `Draw` call that starts with a non-zero program
handle and `failFlag = false` and finds the collision test negative, exactly
one step is applied to `down`: `old - 0.03` if `click` was set at entry,
`old + 0.02` otherwise; and `click` is `false` after the call. Hence
`NotifyTap` followed by two such `Draw` calls changes `down` by `-0.03` and
then by `+0.02`. -/
theorem Draw_down (g g' : GLfloat → GLfloat → GLfloat) (s : Renderer)
    (hp : s.mProgram ≠ 0) (hf : s.failFlag = false) (hc : ¬ collides s) :
    (Draw g s).1.down = (if s.click = true then s.down - 0.03 else s.down + 0.02)
    ∧ (Draw g s).1.click = false
    ∧ (¬ collides (Draw g (NotifyTap s)).1 →
        (Draw g (NotifyTap s)).1.down = s.down - 0.03
        ∧ (Draw g' (Draw g (NotifyTap s)).1).1.down
            = (Draw g (NotifyTap s)).1.down + 0.02) := by
  have h1 : playing (NotifyTap s) := ⟨hp, hf, hc⟩
  refine ⟨?_, ?_, ?_⟩
  · rw [Draw_playing g s ⟨hp, hf, hc⟩, advance_down]
  · rw [Draw_playing g s ⟨hp, hf, hc⟩, advance_click]
  · intro hc2
    have e1 : (Draw g (NotifyTap s)).1 = advance g (NotifyTap s) := by
      rw [Draw_playing g _ h1]
    have h2 : playing (Draw g (NotifyTap s)).1 := by
      refine ⟨?_, ?_, hc2⟩
      · rw [e1, advance_mProgram]; exact hp
      · rw [e1, advance_failFlag]; exact hf
    have e2 : (Draw g' (Draw g (NotifyTap s)).1).1 = advance g' (Draw g (NotifyTap s)).1 := by
      rw [Draw_playing g' _ h2]
    constructor
    · rw [e1, advance_down]; simp [NotifyTap]
    · rw [e2, advance_down]
      have hcl : (Draw g (NotifyTap s)).1.click = false := by rw [e1, advance_click]
      simp [hcl]

theorem Draw_down_witness :
    (⟨false, false, 1, 0, 0, 0.9⟩ : Renderer).mProgram ≠ 0
    ∧ (⟨false, false, 1, 0, 0, 0.9⟩ : Renderer).failFlag = false
    ∧ ¬ collides ⟨false, false, 1, 0, 0, 0.9⟩
    ∧ (Draw (fun _ _ => 0.9) ⟨false, false, 1, 0, 0, 0.9⟩).1.down = 0 + 0.02
    ∧ (Draw (fun _ _ => 0.9) ⟨false, false, 1, 0, 0, 0.9⟩).1.click = false
    ∧ ¬ collides (Draw (fun _ _ => 0.9) (NotifyTap ⟨false, false, 1, 0, 0, 0.9⟩)).1
    ∧ (Draw (fun _ _ => 0.9) (NotifyTap ⟨false, false, 1, 0, 0, 0.9⟩)).1.down = 0 - 0.03
    ∧ (Draw (fun _ _ => 0.9)
          (Draw (fun _ _ => 0.9) (NotifyTap ⟨false, false, 1, 0, 0, 0.9⟩)).1).1.down
        = (Draw (fun _ _ => 0.9) (NotifyTap ⟨false, false, 1, 0, 0, 0.9⟩)).1.down + 0.02 := by
  have hc : ¬ collides ⟨false, false, 1, 0, 0, 0.9⟩ := by
    rw [collides_iff]; norm_num
  have hc2 : ¬ collides (Draw (fun _ _ => 0.9) (NotifyTap ⟨false, false, 1, 0, 0, 0.9⟩)).1 := by
    rw [Draw_playing _ (NotifyTap ⟨false, false, 1, 0, 0, 0.9⟩) ⟨by decide, rfl, hc⟩,
      collides_iff, advance_xMoveStep]
    norm_num [NotifyTap]
  have h := Draw_down (fun _ _ => 0.9) (fun _ _ => 0.9) ⟨false, false, 1, 0, 0, 0.9⟩
    (by decide) rfl hc
  exact ⟨by decide, rfl, hc, h.1, h.2.1, hc2, (h.2.2 hc2).1, (h.2.2 hc2).2⟩

/-! ## The column geometry -/

/-- C10, as stated, fails: with `randomHeight = 0.9` the bottom edge of the
upper segment is at `y = 0.1` and the top edge of the lower segment at
`y = -0.4`; the gap is `0.5`, not `0.9`. -/
theorem column_gap_counterexample :
    gapSize (columnVertexPositions ⟨false, false, 1, 0, 0, 0.9⟩) = 0.5
    ∧ gapSize (columnVertexPositions ⟨false, false, 1, 0, 0, 0.9⟩)
        ≠ (⟨false, false, 1, 0, 0, 0.9⟩ : Renderer).randomHeight := by
  have h : gapSize (columnVertexPositions ⟨false, false, 1, 0, 0, 0.9⟩) = 0.5 := by
    simp [gapSize, bottomEdge, topEdge, upperSegment, lowerSegment, ys, columnVertexPositions]
    norm_num
  refine ⟨h, ?_⟩
  rw [h]; norm_num

/-- C10, amended: for every `xMoveStep` and every `randomHeight` in `[0, 2]`
(which contains the range `[0.0, 1.8]` it is drawn from), `LoadColumn` emits 12
vertices in which the vertical distance between the bottom edge of the upper
segment and the top edge of the lower segment is the constant `0.5`;
`randomHeight` is the height of the upper segment. -/
theorem column_gap (s : Renderer) (h0 : 0 ≤ s.randomHeight) (h2 : s.randomHeight ≤ 2) :
    (columnVertexPositions s).length = 12
    ∧ gapSize (columnVertexPositions s) = 0.5
    ∧ topEdge (upperSegment (columnVertexPositions s))
        - bottomEdge (upperSegment (columnVertexPositions s)) = s.randomHeight := by
  have a : min (1.0 : GLfloat) (1.0 - s.randomHeight) = 1.0 - s.randomHeight :=
    min_eq_right (by linarith)
  have b : max (1.0 - s.randomHeight - 0.5) (-1.5 : GLfloat) = 1.0 - s.randomHeight - 0.5 :=
    max_eq_left (by norm_num; linarith)
  have c : max (1.0 : GLfloat) (1.0 - s.randomHeight) = 1.0 :=
    max_eq_left (by linarith)
  refine ⟨rfl, ?_, ?_⟩
  · simp only [gapSize, bottomEdge, topEdge, upperSegment, lowerSegment, ys,
      columnVertexPositions, List.take, List.drop, List.map, List.foldl]
    have a' : (1.0 - s.randomHeight) ⊓ (1.0 : GLfloat) = 1.0 - s.randomHeight :=
      min_eq_left (by linarith)
    have b' : (1.0 - s.randomHeight - 0.5) ⊔ (1.0 - s.randomHeight - 0.5)
        = 1.0 - s.randomHeight - 0.5 := max_self _
    rw [min_self, a, min_self, min_self, a', b', b, b, b, max_self]
    norm_num
  · simp only [gapSize, bottomEdge, topEdge, upperSegment, lowerSegment, ys,
      columnVertexPositions, List.take, List.drop, List.map, List.foldl]
    have a' : (1.0 - s.randomHeight) ⊓ (1.0 : GLfloat) = 1.0 - s.randomHeight :=
      min_eq_left (by linarith)
    rw [min_self, a, min_self, min_self, a', max_self, c, c, c, max_self]
    norm_num

theorem column_gap_witness :
    (0 : GLfloat) ≤ (⟨false, false, 1, 0, 0.3, 1.8⟩ : Renderer).randomHeight
    ∧ (⟨false, false, 1, 0, 0.3, 1.8⟩ : Renderer).randomHeight ≤ 2
    ∧ gapSize (columnVertexPositions ⟨false, false, 1, 0, 0.3, 1.8⟩) = 0.5 :=
  ⟨by norm_num, by norm_num,
    (column_gap ⟨false, false, 1, 0, 0.3, 1.8⟩ (by norm_num) (by norm_num)).2.1⟩

/-! ## Sequences of calls: basic facts -/

theorem run_nil (s : Renderer) : run s [] = s := rfl

theorem run_cons (s : Renderer) (e : Event) (evs : List Event) :
    run s (e :: evs) = run (step s e) evs := rfl

theorem run_append (s : Renderer) (a b : List Event) :
    run s (a ++ b) = run (run s a) b := by
  simp [run, List.foldl_append]

theorem step_mProgram (s : Renderer) (e : Event) : (step s e).mProgram = s.mProgram := by
  cases e with
  | tap => rfl
  | draw g =>
    simp only [step]
    by_cases hp : s.mProgram = 0
    · rw [Draw_noProgram g s hp]
    · by_cases hfc : s.failFlag = true ∨ collides s
      · rw [Draw_fail g s hp hfc]
      · have hpl : playing s :=
          ⟨hp, by cases hs : s.failFlag <;> simp_all, fun hc => hfc (Or.inr hc)⟩
        rw [Draw_playing g s hpl, advance_mProgram]

theorem run_mProgram (s : Renderer) (evs : List Event) : (run s evs).mProgram = s.mProgram := by
  induction evs generalizing s with
  | nil => rfl
  | cons e evs ih => rw [run_cons, ih, step_mProgram]

theorem step_failFlag_true (s : Renderer) (e : Event) (h : s.failFlag = true) :
    (step s e).failFlag = true := by
  cases e with
  | tap => exact h
  | draw g =>
    simp only [step]
    by_cases hp : s.mProgram = 0
    · rw [Draw_noProgram g s hp]; exact h
    · rw [Draw_fail g s hp (Or.inl h)]

theorem run_failFlag_true (s : Renderer) (evs : List Event) (h : s.failFlag = true) :
    (run s evs).failFlag = true := by
  induction evs generalizing s with
  | nil => exact h
  | cons e evs ih => rw [run_cons]; exact ih _ (step_failFlag_true s e h)

/-! ## Fifty frames of free fall -/

theorem advance_eq (g : GLfloat → GLfloat → GLfloat) (s : Renderer) :
    advance g s =
      { click := false, failFlag := s.failFlag, mProgram := s.mProgram,
        down := if s.click = true then s.down - 0.03 else s.down + 0.02,
        xMoveStep := if s.xMoveStep + 0.012 ≥ 2.5 then 0.01 else s.xMoveStep + 0.012,
        randomHeight := if s.xMoveStep + 0.012 ≥ 2.5 then g 0.0 1.8 else s.randomHeight } := by
  by_cases hc : s.click = true <;> by_cases hx : s.xMoveStep + 0.012 ≥ 2.5 <;>
    simp [advance, LoadColumn, LoadCircle, hc, hx]

theorem Draw_fall_step (g : GLfloat → GLfloat → GLfloat) (p n : Nat) (hp : p ≠ 0)
    (hn : n < 120) :
    (Draw g ⟨false, false, p, 0.02 * n, 0.012 * n, 0.9⟩).1
      = ⟨false, false, p, 0.02 * (n + 1 : Nat), 0.012 * (n + 1 : Nat), 0.9⟩ := by
  have hq : (n : GLfloat) ≤ 119 := by exact_mod_cast Nat.le_of_lt_succ hn
  have hpl : playing ⟨false, false, p, 0.02 * n, 0.012 * n, 0.9⟩ := by
    refine ⟨hp, rfl, ?_⟩
    rw [collides_iff]
    rintro ⟨_, h1, _⟩
    norm_num at h1
    linarith
  rw [Draw_playing g _ hpl, advance_eq]
  have hx : ¬ ((0.012 : GLfloat) * n + 0.012 ≥ 2.5) := by
    norm_num; linarith
  simp only [if_neg hx, Bool.false_eq_true, if_false]
  push_cast
  congr 1 <;> ring

theorem run_fall (p : Nat) (hp : p ≠ 0) (grs : List (GLfloat → GLfloat → GLfloat))
    (hn : grs.length ≤ 120) :
    run ⟨false, false, p, 0, 0, 0.9⟩ (grs.map Event.draw)
      = ⟨false, false, p, 0.02 * grs.length, 0.012 * grs.length, 0.9⟩ := by
  induction grs using List.reverseRecOn with
  | nil => simp [run]
  | append_singleton l g ih =>
    rw [List.length_append, List.length_singleton] at hn
    rw [List.map_append, run_append, ih (by omega)]
    simp only [List.map, run_cons, run_nil, step]
    rw [Draw_fall_step g p l.length hp (by omega)]
    simp

theorem run_noProgram (s : Renderer) (hp : s.mProgram = 0)
    (grs : List (GLfloat → GLfloat → GLfloat)) :
    run s (grs.map Event.draw) = s := by
  induction grs with
  | nil => rfl
  | cons g gs ih =>
    rw [List.map_cons, run_cons]
    simp only [step, Draw_noProgram g s hp]
    exact ih

/-- C7, as stated, fails when the program handle is zero: from `down = 0`,
`xMoveStep = 0`, `randomHeight = 0.9`, `failFlag = false`, `click = false`,
fifty `Draw` calls without taps return at once each time and end with
`down = 0`, not `1.0`. -/
theorem fifty_frames_counterexample :
    (List.replicate 50 (fun (_ _ : GLfloat) => (0.9 : GLfloat))).length = 50
    ∧ (run ⟨false, false, 0, 0, 0, 0.9⟩
        ((List.replicate 50 (fun (_ _ : GLfloat) => (0.9 : GLfloat))).map Event.draw)).down
        ≠ 1.0 := by
  refine ⟨by simp, ?_⟩
  rw [run_noProgram _ rfl]
  norm_num

/-- C7, amended: starting from `down = 0`, `xMoveStep = 0`,
`randomHeight = 0.9`, `failFlag = false`, `click = false` and a non-zero
program handle, 50 consecutive `Draw` calls with no taps end with `down = 1.0`
and `failFlag = false`; after each of the first `k ≤ 50` frames `xMoveStep` is
at most `0.6`, so the column's extent `[1.0 - xMoveStep, 1.5 - xMoveStep]`
never overlaps the circle's extent `[-0.55, -0.45]`. -/
theorem fifty_frames (s : Renderer) (grs : List (GLfloat → GLfloat → GLfloat))
    (hp : s.mProgram ≠ 0) (hd : s.down = 0) (hx : s.xMoveStep = 0)
    (hr : s.randomHeight = 0.9) (hf : s.failFlag = false) (hc : s.click = false)
    (hn : grs.length = 50) :
    (run s (grs.map Event.draw)).down = 1.0
    ∧ (run s (grs.map Event.draw)).failFlag = false
    ∧ ∀ k, k ≤ 50 →
        (run s ((grs.take k).map Event.draw)).xMoveStep ≤ 0.6
        ∧ ¬ (max (-0.55) (1.0 - (run s ((grs.take k).map Event.draw)).xMoveStep)
              < min (-0.45) (1.5 - (run s ((grs.take k).map Event.draw)).xMoveStep)) := by
  have hs : s = ⟨false, false, s.mProgram, 0, 0, 0.9⟩ := by
    cases s; simp_all
  rw [hs]
  refine ⟨?_, ?_, ?_⟩
  · rw [run_fall _ hp grs (by omega), hn]; norm_num
  · rw [run_fall _ hp grs (by omega)]
  · intro k hk
    have hlen : (grs.take k).length = k := by
      rw [List.length_take]; omega
    have hq : (k : GLfloat) ≤ 50 := by exact_mod_cast hk
    rw [run_fall _ hp (grs.take k) (by omega), hlen]
    refine ⟨by norm_num; linarith, ?_⟩
    rw [overlap_iff]
    rintro ⟨h1, _⟩
    norm_num at h1
    linarith

theorem fifty_frames_witness :
    (run ⟨false, false, 7, 0, 0, 0.9⟩
        ((List.replicate 50 (fun (_ _ : GLfloat) => (1.2 : GLfloat))).map Event.draw)).down = 1.0
    ∧ (run ⟨false, false, 7, 0, 0, 0.9⟩
        ((List.replicate 50 (fun (_ _ : GLfloat) => (1.2 : GLfloat))).map Event.draw)).failFlag
        = false :=
  ⟨(fifty_frames ⟨false, false, 7, 0, 0, 0.9⟩ (List.replicate 50 (fun _ _ => 1.2))
      (by decide) rfl rfl rfl rfl rfl (by simp)).1,
    (fifty_frames ⟨false, false, 7, 0, 0, 0.9⟩ (List.replicate 50 (fun _ _ => 1.2))
      (by decide) rfl rfl rfl rfl rfl (by simp)).2.1⟩

/-! ## The obstacle sweep -/

theorem frameCount_append (a b : List Event) :
    frameCount (a ++ b) = frameCount a + frameCount b := by
  induction a with
  | nil => simp [frameCount]
  | cons e a ih =>
    cases e with
    | tap => simpa [frameCount] using ih
    | draw g => simp [frameCount, ih]; omega

theorem wrapCount_append (s : Renderer) (a b : List Event) :
    wrapCount s (a ++ b) = wrapCount s a + wrapCount (run s a) b := by
  induction a generalizing s with
  | nil => simp [wrapCount, run]
  | cons e a ih =>
    cases e with
    | tap => simpa [wrapCount, run_cons] using ih _
    | draw g => simp [wrapCount, run_cons, ih, Nat.add_assoc]

theorem noCollision_append (s : Renderer) (a b : List Event) :
    noCollision s (a ++ b) ↔ noCollision s a ∧ noCollision (run s a) b := by
  induction a generalizing s with
  | nil => simp [noCollision, run]
  | cons e a ih =>
    cases e with
    | tap => simpa [noCollision, run_cons] using ih _
    | draw g => simp [noCollision, run_cons, ih, and_assoc]

theorem sweep_wrap_iff (n : Nat) :
    sweep n + 0.012 ≥ 2.5 ↔ (0 < n ∧ n % 208 = 0) := by
  unfold sweep
  by_cases h : n ≤ 208
  · rw [if_pos h]
    by_cases h' : n = 208
    · subst h'; norm_num
    · have h2 : n ≤ 207 := by omega
      have hq : (n : GLfloat) ≤ 207 := by exact_mod_cast h2
      constructor
      · intro hge; norm_num at hge; linarith
      · rintro ⟨h3, h4⟩; omega
  · rw [if_neg h]
    have hm : (n - 209) % 208 < 208 := Nat.mod_lt _ (by norm_num)
    by_cases h' : (n - 209) % 208 = 207
    · rw [h']
      constructor
      · intro _; omega
      · intro _; norm_num
    · have h2 : (n - 209) % 208 ≤ 206 := by omega
      have hq : (((n - 209) % 208 : Nat) : GLfloat) ≤ 206 := by exact_mod_cast h2
      constructor
      · intro hge; norm_num at hge; linarith
      · rintro ⟨h3, h4⟩; omega

theorem sweep_succ (n : Nat) :
    (if sweep n + 0.012 ≥ 2.5 then (0.01 : GLfloat) else sweep n + 0.012) = sweep (n + 1) := by
  by_cases hw : sweep n + 0.012 ≥ 2.5
  · rw [if_pos hw]
    obtain ⟨h1, h2⟩ := (sweep_wrap_iff n).1 hw
    unfold sweep
    have h3 : ¬ (n + 1 ≤ 208) := by omega
    have h4 : (n + 1 - 209) % 208 = 0 := by omega
    rw [if_neg h3, h4]
    norm_num
  · rw [if_neg hw]
    have hw' : ¬ (0 < n ∧ n % 208 = 0) := fun h => hw ((sweep_wrap_iff n).2 h)
    unfold sweep
    by_cases h : n ≤ 208
    · have h3 : n + 1 ≤ 208 := by omega
      rw [if_pos h, if_pos h3]
      push_cast; ring
    · have h3 : ¬ (n + 1 ≤ 208) := by omega
      have h4 : (n + 1 - 209) % 208 = (n - 209) % 208 + 1 := by omega
      rw [if_neg h, if_neg h3, h4]
      push_cast; ring

theorem run_sweep (s : Renderer) (evs : List Event)
    (hp : s.mProgram ≠ 0) (hf : s.failFlag = false) (hx : s.xMoveStep = 0)
    (hn : noCollision s evs) :
    (run s evs).failFlag = false
    ∧ (run s evs).xMoveStep = sweep (frameCount evs)
    ∧ wrapCount s evs = (frameCount evs - 1) / 208 := by
  induction evs using List.reverseRecOn with
  | nil => simp [run, frameCount, wrapCount, sweep, hf, hx]
  | append_singleton l e ih =>
    rw [noCollision_append] at hn
    obtain ⟨hl, he⟩ := hn
    obtain ⟨ihf, ihx, ihw⟩ := ih hl
    rw [run_append, frameCount_append, wrapCount_append, ihw]
    cases e with
    | tap =>
      simp only [run_cons, run_nil, step, NotifyTap, frameCount, wrapCount, ihf, ihx]
      simp
    | draw g =>
      have hpl : playing (run s l) := ⟨by rw [run_mProgram]; exact hp, ihf, he.1⟩
      simp only [run_cons, run_nil, step, frameCount, wrapCount]
      rw [Draw_playing g _ hpl, advance_failFlag, advance_xMoveStep, ihx, sweep_succ]
      refine ⟨ihf, rfl, ?_⟩
      have hwr : wraps (run s l) ↔ (0 < frameCount l ∧ frameCount l % 208 = 0) := by
        rw [← sweep_wrap_iff, ← ihx]
        exact ⟨fun h => h.2, fun h => ⟨hpl, h⟩⟩
      by_cases hw : wraps (run s l)
      · rw [if_pos hw]
        have := hwr.1 hw
        omega
      · rw [if_neg hw]
        have : ¬ (0 < frameCount l ∧ frameCount l % 208 = 0) := fun h => hw (hwr.2 h)
        omega

/-! ## A run that hovers inside the gap -/

theorem hovering_not_collides (d : GLfloat) (t : Renderer) (h : hovering d t)
    (h1 : -0.19 < d) (h2 : d < 0.19) : ¬ collides t := by
  obtain ⟨_, _, _, hd, hr⟩ := h
  rw [collides_iff, hd, hr]
  rintro ⟨hv | hv, _⟩
  · norm_num at hv h1; linarith
  · norm_num at hv h2; linarith

theorem hovering_fall (d : GLfloat) (t : Renderer) (h : hovering d t)
    (h1 : -0.19 < d) (h2 : d < 0.19) :
    hovering (d + 0.02) (step t (Event.draw hoverRandom)) := by
  have hc := hovering_not_collides d t h h1 h2
  obtain ⟨hp, hf, hcl, hd, hr⟩ := h
  simp only [step]
  rw [Draw_playing _ t ⟨hp, hf, hc⟩]
  refine ⟨?_, ?_, ?_, ?_, ?_⟩
  · rw [advance_mProgram]; exact hp
  · rw [advance_failFlag]; exact hf
  · rw [advance_click]
  · rw [advance_down, hcl, hd]; simp
  · rw [advance_randomHeight, hr]; simp [hoverRandom]

theorem hovering_tap (d : GLfloat) (t : Renderer) (h : hovering d t)
    (h1 : -0.19 < d) (h2 : d < 0.19) :
    ¬ collides (step t Event.tap)
    ∧ hovering (d - 0.03) (step (step t Event.tap) (Event.draw hoverRandom)) := by
  have hc := hovering_not_collides d t h h1 h2
  obtain ⟨hp, hf, hcl, hd, hr⟩ := h
  have hc' : ¬ collides (NotifyTap t) := hc
  refine ⟨hc', ?_⟩
  simp only [step]
  rw [Draw_playing _ (NotifyTap t) ⟨hp, hf, hc'⟩]
  refine ⟨?_, ?_, ?_, ?_, ?_⟩
  · rw [advance_mProgram]; exact hp
  · rw [advance_failFlag]; exact hf
  · rw [advance_click]
  · rw [advance_down]; simp [NotifyTap, hd]
  · rw [advance_randomHeight]; simp [NotifyTap, hr, hoverRandom]

theorem hoverPattern_ok (t : Renderer) (h : hovering 0 t) :
    noCollision t hoverPattern ∧ hovering 0 (run t hoverPattern) := by
  obtain ⟨c1, s1⟩ := hovering_tap 0 t h (by norm_num) (by norm_num)
  obtain ⟨c2, s2⟩ := hovering_tap _ _ s1 (by norm_num) (by norm_num)
  have c3 := hovering_not_collides _ _ s2 (by norm_num) (by norm_num)
  have s3 := hovering_fall _ _ s2 (by norm_num) (by norm_num)
  have c4 := hovering_not_collides _ _ s3 (by norm_num) (by norm_num)
  have s4 := hovering_fall _ _ s3 (by norm_num) (by norm_num)
  have c5 := hovering_not_collides _ _ s4 (by norm_num) (by norm_num)
  have s5 := hovering_fall _ _ s4 (by norm_num) (by norm_num)
  refine ⟨⟨c1, c2, c3, c4, c5, trivial⟩, ?_⟩
  have e : (0 : GLfloat) - 0.03 - 0.03 + 0.02 + 0.02 + 0.02 = 0 := by norm_num
  rw [e] at s5
  exact s5

theorem hover_ok (k : Nat) (t : Renderer) (h : hovering 0 t) :
    noCollision t (hover k) ∧ hovering 0 (run t (hover k)) := by
  induction k generalizing t with
  | zero => exact ⟨trivial, h⟩
  | succ k ih =>
    obtain ⟨c, s1⟩ := hoverPattern_ok t h
    obtain ⟨c', s2⟩ := ih _ s1
    simp only [hover]
    rw [noCollision_append, run_append]
    exact ⟨⟨c, c'⟩, s2⟩

theorem frameCount_hover (k : Nat) : frameCount (hover k) = 5 * k := by
  induction k with
  | zero => rfl
  | succ k ih =>
    simp only [hover]
    rw [frameCount_append, ih]
    simp [hoverPattern, frameCount]
    omega

theorem hoverStart_hovering : hovering 0 hoverStart :=
  ⟨by decide, rfl, rfl, rfl, rfl⟩

theorem frames208_noCollision :
    noCollision hoverStart frames208
    ∧ hovering (0 + 0.02 + 0.02 + 0.02) (run hoverStart frames208) := by
  obtain ⟨c, s0⟩ := hover_ok 41 hoverStart hoverStart_hovering
  have c1 := hovering_not_collides _ _ s0 (by norm_num) (by norm_num)
  have s1 := hovering_fall _ _ s0 (by norm_num) (by norm_num)
  have c2 := hovering_not_collides _ _ s1 (by norm_num) (by norm_num)
  have s2 := hovering_fall _ _ s1 (by norm_num) (by norm_num)
  have c3 := hovering_not_collides _ _ s2 (by norm_num) (by norm_num)
  have s3 := hovering_fall _ _ s2 (by norm_num) (by norm_num)
  unfold frames208
  rw [noCollision_append, run_append]
  exact ⟨⟨c, c1, c2, c3, trivial⟩, s3⟩

theorem frameCount_frames208 : frameCount frames208 = 208 := by
  unfold frames208
  rw [frameCount_append, frameCount_hover]
  rfl

theorem frames209_noCollision : noCollision hoverStart frames209 := by
  obtain ⟨c, s0⟩ := frames208_noCollision
  have c1 := hovering_not_collides _ _ s0 (by norm_num) (by norm_num)
  unfold frames209
  rw [noCollision_append]
  exact ⟨c, c1, trivial⟩

theorem frameCount_frames209 : frameCount frames209 = 209 := by
  unfold frames209
  rw [frameCount_append, frameCount_frames208]
  rfl

theorem wrapCount_noProgram (s : Renderer) (hp : s.mProgram = 0) (evs : List Event) :
    wrapCount s evs = 0 := by
  induction evs generalizing s with
  | nil => rfl
  | cons e evs ih =>
    have hp' : (step s e).mProgram = 0 := by rw [step_mProgram]; exact hp
    cases e with
    | tap => simpa [wrapCount] using ih _ hp'
    | draw g =>
      have hw : ¬ wraps s := fun h => h.1.1 hp
      simp only [wrapCount, if_neg hw, Nat.zero_add]
      exact ih _ hp'

theorem noCollision_noProgram (s : Renderer) (hp : s.mProgram = 0) (hc : ¬ collides s)
    (evs : List Event) : noCollision s evs := by
  induction evs generalizing s with
  | nil => trivial
  | cons e evs ih =>
    cases e with
    | tap => exact ih (NotifyTap s) hp hc
    | draw g =>
      refine ⟨hc, ?_⟩
      simp only [step, Draw_noProgram g s hp]
      exact ih s hp hc

/-- C8, as stated, fails at `N = 208`: over the 208 frames of `frames208`,
started at `xMoveStep = 0` with a non-zero program handle, no collision is
detected and `xMoveStep` never wraps (it reaches `2.496` after frame 208 and
wraps on frame 209), while `floor(0.012 * 208 / 2.49) = floor(2.496 / 2.49)`
is `1`. And with `mProgram = 0` no frame ever wraps: over the 209 frames of
`frames209` the count is `0`, while `floor(0.012 * 209 / 2.49)` is `1`. -/
theorem wrapCount_counterexample :
    (hoverStart.xMoveStep = 0
      ∧ frameCount frames208 = 208
      ∧ noCollision hoverStart frames208
      ∧ wrapCount hoverStart frames208 = 0
      ∧ ⌊(0.012 * (208 : GLfloat) / 2.49)⌋ = 1)
    ∧ ((⟨false, false, 0, 0, 0, 0.75⟩ : Renderer).xMoveStep = 0
      ∧ frameCount frames209 = 209
      ∧ noCollision ⟨false, false, 0, 0, 0, 0.75⟩ frames209
      ∧ wrapCount ⟨false, false, 0, 0, 0, 0.75⟩ frames209 = 0
      ∧ ⌊(0.012 * (209 : GLfloat) / 2.49)⌋ = 1) := by
  have hc : ¬ collides ⟨false, false, 0, 0, 0, 0.75⟩ := by
    rw [collides_iff]; norm_num
  refine ⟨⟨rfl, frameCount_frames208, frames208_noCollision.1, ?_, ?_⟩,
    rfl, frameCount_frames209, noCollision_noProgram _ rfl hc _,
    wrapCount_noProgram _ rfl _, ?_⟩
  · rw [(run_sweep hoverStart frames208 (by decide) rfl rfl frames208_noCollision.1).2.2,
      frameCount_frames208]
  · rw [Int.floor_eq_iff]; norm_num
  · rw [Int.floor_eq_iff]; norm_num

/-- C8, amended: for every sequence of calls, started at `xMoveStep = 0` with
`failFlag = false` and a non-zero program handle, in which no `Draw` call
detects a collision, the number of frames on which `xMoveStep` wraps (is reset
to `0.01`) equals `floor((N - 1) / 208)` for `N ≥ 1` frames and `0` for
`N = 0`: the first wrap happens on frame 209, the following ones every 208
frames; and after the `N` frames `xMoveStep` equals `sweep N`. -/
theorem wrapCount_eq (s : Renderer) (evs : List Event)
    (hp : s.mProgram ≠ 0) (hf : s.failFlag = false) (hx : s.xMoveStep = 0)
    (hn : noCollision s evs) :
    wrapCount s evs = (frameCount evs - 1) / 208
    ∧ (run s evs).xMoveStep = sweep (frameCount evs) :=
  ⟨(run_sweep s evs hp hf hx hn).2.2, (run_sweep s evs hp hf hx hn).2.1⟩

theorem wrapCount_eq_witness :
    hoverStart.mProgram ≠ 0 ∧ hoverStart.failFlag = false ∧ hoverStart.xMoveStep = 0
    ∧ noCollision hoverStart frames209
    ∧ wrapCount hoverStart frames209 = 1 := by
  refine ⟨by decide, rfl, rfl, frames209_noCollision, ?_⟩
  rw [(wrapCount_eq hoverStart frames209 (by decide) rfl rfl frames209_noCollision).1,
    frameCount_frames209]

/-! ## Reachable states -/

theorem run_noProgram_fields (s : Renderer) (hp : s.mProgram = 0) (evs : List Event) :
    (run s evs).failFlag = s.failFlag ∧ (run s evs).xMoveStep = s.xMoveStep
      ∧ (run s evs).down = s.down := by
  induction evs generalizing s with
  | nil => exact ⟨rfl, rfl, rfl⟩
  | cons e evs ih =>
    rw [run_cons]
    cases e with
    | tap => exact ih (NotifyTap s) hp
    | draw g =>
      simp only [step, Draw_noProgram g s hp]
      exact ih s hp

theorem reachable_noProgram (s : Renderer) (hr : Reachable s) (hp : s.mProgram = 0) :
    s.failFlag = false ∧ s.xMoveStep = 0 ∧ s.down = 0 := by
  obtain ⟨program, g, evs, rfl⟩ := hr
  rw [run_mProgram] at hp
  obtain ⟨h1, h2, h3⟩ := run_noProgram_fields (construct program g) hp evs
  rw [h1, h2, h3]
  refine ⟨rfl, ?_, ?_⟩ <;> simp only [construct] <;> norm_num

theorem reachable_run (s : Renderer) (hr : Reachable s) (evs : List Event) :
    Reachable (run s evs) := by
  obtain ⟨program, g, evs0, rfl⟩ := hr
  exact ⟨program, g, evs0 ++ evs, by rw [run_append]⟩

theorem reachable_construct (program : Nat) (g : GLfloat → GLfloat → GLfloat) :
    Reachable (construct program g) :=
  ⟨program, g, [], rfl⟩

/-! ## Runs of falling and of tapped frames -/

theorem not_collides_of_far (s : Renderer) (hx : s.xMoveStep ≤ 1.44) : ¬ collides s := by
  rw [collides_iff]
  rintro ⟨_, h1, _⟩
  norm_num at h1 hx
  linarith

theorem not_collides_of_inside (s : Renderer)
    (htop : -s.down + 0.05 < 1.0 - s.randomHeight)
    (hbot : 1.0 - s.randomHeight - 0.5 < -s.down - 0.05) : ¬ collides s := by
  rw [collides_iff]
  rintro ⟨hv | hv, _⟩
  · exact absurd hv (not_le.mpr htop)
  · exact absurd hv (not_le.mpr hbot)

theorem step_fall (g : GLfloat → GLfloat → GLfloat) (p : Nat) (d x r : GLfloat)
    (hp : p ≠ 0) (hc : ¬ collides ⟨false, false, p, d, x, r⟩) (hx : x + 0.012 < 2.5) :
    step ⟨false, false, p, d, x, r⟩ (Event.draw g) = ⟨false, false, p, d + 0.02, x + 0.012, r⟩ := by
  simp only [step]
  rw [Draw_playing g _ ⟨hp, rfl, hc⟩, advance_eq]
  have hx' : ¬ (x + 0.012 ≥ 2.5) := not_le.mpr hx
  simp [hx']

theorem step_rise (g : GLfloat → GLfloat → GLfloat) (p : Nat) (d x r : GLfloat)
    (hp : p ≠ 0) (hc : ¬ collides ⟨false, false, p, d, x, r⟩) (hx : x + 0.012 < 2.5) :
    step (step ⟨false, false, p, d, x, r⟩ Event.tap) (Event.draw g)
      = ⟨false, false, p, d - 0.03, x + 0.012, r⟩ := by
  simp only [step]
  have hc' : ¬ collides (NotifyTap ⟨false, false, p, d, x, r⟩) := hc
  rw [Draw_playing g _ ⟨hp, rfl, hc'⟩, advance_eq]
  have hx' : ¬ (x + 0.012 ≥ 2.5) := not_le.mpr hx
  simp [NotifyTap, hx']

theorem run_fallFrames_far (g : GLfloat → GLfloat → GLfloat) (p : Nat) (hp : p ≠ 0)
    (r : GLfloat) (k : Nat) (d x : GLfloat) (hx : x + 0.012 * k ≤ 1.452) :
    run ⟨false, false, p, d, x, r⟩ (fallFrames g k)
      = ⟨false, false, p, d + 0.02 * k, x + 0.012 * k, r⟩ := by
  induction k generalizing d x with
  | zero => simp [fallFrames, run]
  | succ k ih =>
    have hk : (0 : GLfloat) ≤ k := Nat.cast_nonneg k
    push_cast at hx
    have hx0 : x ≤ 1.44 := by norm_num at hx ⊢; linarith
    simp only [fallFrames, run_cons]
    rw [step_fall g p d x r hp (not_collides_of_far _ hx0) (by norm_num at hx0 ⊢; linarith),
      ih (d + 0.02) (x + 0.012) (by linarith)]
    push_cast
    congr 1 <;> ring

theorem run_riseFrames_far (g : GLfloat → GLfloat → GLfloat) (p : Nat) (hp : p ≠ 0)
    (r : GLfloat) (k : Nat) (d x : GLfloat) (hx : x + 0.012 * k ≤ 1.452) :
    run ⟨false, false, p, d, x, r⟩ (riseFrames g k)
      = ⟨false, false, p, d - 0.03 * k, x + 0.012 * k, r⟩ := by
  induction k generalizing d x with
  | zero => simp [riseFrames, run]
  | succ k ih =>
    have hk : (0 : GLfloat) ≤ k := Nat.cast_nonneg k
    push_cast at hx
    have hx0 : x ≤ 1.44 := by norm_num at hx ⊢; linarith
    simp only [riseFrames, run_cons]
    rw [step_rise g p d x r hp (not_collides_of_far _ hx0) (by norm_num at hx0 ⊢; linarith),
      ih (d - 0.03) (x + 0.012) (by linarith)]
    push_cast
    congr 1 <;> ring

theorem run_riseFrames_inside (g : GLfloat → GLfloat → GLfloat) (p : Nat) (hp : p ≠ 0)
    (r : GLfloat) (k : Nat) (d x : GLfloat)
    (htop : -(d - 0.03 * k) + 0.05 ≤ 1.0 - r) (hbot : 1.0 - r - 0.5 < -d - 0.05)
    (hx : x + 0.012 * k < 2.5) :
    run ⟨false, false, p, d, x, r⟩ (riseFrames g k)
      = ⟨false, false, p, d - 0.03 * k, x + 0.012 * k, r⟩ := by
  induction k generalizing d x with
  | zero => simp [riseFrames, run]
  | succ k ih =>
    have hk : (0 : GLfloat) ≤ k := Nat.cast_nonneg k
    push_cast at hx htop
    have hc : ¬ collides ⟨false, false, p, d, x, r⟩ :=
      not_collides_of_inside _ (by show -d + 0.05 < 1.0 - r; linarith) hbot
    simp only [riseFrames, run_cons]
    rw [step_rise g p d x r hp hc (by linarith),
      ih (d - 0.03) (x + 0.012) (by linarith) (by linarith) (by linarith)]
    push_cast
    congr 1 <;> ring

theorem construct_eq (program : Nat) (r : GLfloat) :
    construct program (fun _ _ => r) = ⟨false, false, program, 0, 0, r⟩ := by
  simp only [construct]
  norm_num

theorem run_to_graze :
    run (construct 1 (fun _ _ => 1.57))
        (riseFrames (fun _ _ => 1.57) 36 ++ fallFrames (fun _ _ => 1.57) 85)
      = ⟨false, false, 1, 0.62, 1.452, 1.57⟩ := by
  rw [construct_eq, run_append,
    run_riseFrames_far _ 1 (by decide) _ 36 0 0 (by norm_num),
    run_fallFrames_far _ 1 (by decide) _ 85 _ _ (by norm_num)]
  norm_num

theorem run_to_touch :
    run (construct 1 (fun _ _ => 1.7))
        (riseFrames (fun _ _ => 1.7) 28 ++ fallFrames (fun _ _ => 1.7) 93
          ++ riseFrames (fun _ _ => 1.7) 9)
      = ⟨false, false, 1, 0.75, 1.56, 1.7⟩ := by
  rw [construct_eq, run_append, run_append,
    run_riseFrames_far _ 1 (by decide) _ 28 0 0 (by norm_num),
    run_fallFrames_far _ 1 (by decide) _ 93 _ _ (by norm_num),
    run_riseFrames_inside _ 1 (by decide) _ 9 _ _ (by norm_num) (by norm_num) (by norm_num)]
  norm_num

theorem run_to_drop :
    run (construct 1 (fun _ _ => 0)) (fallFrames (fun _ _ => 0) 121)
      = ⟨false, false, 1, 2.42, 1.452, 0⟩ := by
  rw [construct_eq, run_fallFrames_far _ 1 (by decide) _ 121 0 0 (by norm_num)]
  norm_num

/-! ## The collision boundary -/

/-- C2, as stated, fails (arithmetic taken as exact). Construct the renderer
with a non-zero program handle and `randomHeight = 1.57`, draw 36 tapped frames
and 85 falling frames: no frame collides (the column is out of range until
then) and the state is `down = 0.62`, `xMoveStep = 1.452`, `failFlag = false`,
with `down` exactly on the boundary `-down + 0.05 = 1.0 - randomHeight`. The
column's x-window `[-0.452, 0.048]` excludes `x = -0.5`, yet the next `Draw`
latches `failFlag`: the window overlaps the circle's extent `[-0.55, -0.45]`. -/
theorem Draw_boundary_counterexample :
    run (construct 1 (fun _ _ => 1.57))
        (riseFrames (fun _ _ => 1.57) 36 ++ fallFrames (fun _ _ => 1.57) 85)
      = ⟨false, false, 1, 0.62, 1.452, 1.57⟩
    ∧ (⟨false, false, 1, 0.62, 1.452, 1.57⟩ : Renderer).failFlag = false
    ∧ -(0.62 : GLfloat) + 0.05 = 1.0 - 1.57
    ∧ ¬ ((1.0 : GLfloat) - 1.452 ≤ -0.5 ∧ (-0.5 : GLfloat) ≤ 1.5 - 1.452)
    ∧ (Draw (fun _ _ => 1.57) ⟨false, false, 1, 0.62, 1.452, 1.57⟩).1.failFlag = true := by
  refine ⟨run_to_graze, rfl, by norm_num, by norm_num, ?_⟩
  rw [Draw_failFlag_iff _ _ (by decide) rfl, collides_iff]
  norm_num

/-- C2, amended (arithmetic taken as exact): from every state the renderer can
reach from its constructor, with `failFlag = false` and `down` exactly on the
boundary `-down + 0.05 = 1.0 - randomHeight`, the next `Draw` call sets
`failFlag` exactly when the column's x-window
`[1.0 - xMoveStep, 1.5 - xMoveStep]` overlaps the circle's horizontal extent
`[-0.55, -0.45]` with positive width; in particular it sets it whenever the
window contains `x = -0.5`, and leaves it `false` whenever the window does not
overlap that extent. -/
theorem Draw_boundary (g : GLfloat → GLfloat → GLfloat) (s : Renderer)
    (hr : Reachable s) (hf : s.failFlag = false)
    (hb : -s.down + 0.05 = 1.0 - s.randomHeight) :
    ((1.0 - s.xMoveStep ≤ -0.5 ∧ -0.5 ≤ 1.5 - s.xMoveStep) →
        (Draw g s).1.failFlag = true)
    ∧ (¬ (max (-0.55) (1.0 - s.xMoveStep) < min (-0.45) (1.5 - s.xMoveStep)) →
        (Draw g s).1.failFlag = false)
    ∧ ((Draw g s).1.failFlag = true ↔
        max (-0.55) (1.0 - s.xMoveStep) < min (-0.45) (1.5 - s.xMoveStep)) := by
  have key : (Draw g s).1.failFlag = true ↔
      max (-0.55) (1.0 - s.xMoveStep) < min (-0.45) (1.5 - s.xMoveStep) := by
    by_cases hp : s.mProgram = 0
    · obtain ⟨_, hx, _⟩ := reachable_noProgram s hr hp
      rw [Draw_noProgram g s hp, overlap_iff, hx, hf]
      constructor
      · intro h; simp at h
      · rintro ⟨h, _⟩; norm_num at h
    · rw [Draw_failFlag_iff g s hp hf, collides_iff, overlap_iff]
      exact ⟨fun h => h.2, fun h => ⟨Or.inl (le_of_eq hb.symm), h⟩⟩
  refine ⟨?_, ?_, key⟩
  · rintro ⟨h1, h2⟩
    rw [key, overlap_iff]
    constructor
    · norm_num at h1 ⊢; linarith
    · norm_num at h2 ⊢; linarith
  · intro h
    cases hd : (Draw g s).1.failFlag with
    | false => rfl
    | true => exact absurd (key.1 hd) h

theorem Draw_boundary_witness :
    run (construct 1 (fun _ _ => 1.7))
        (riseFrames (fun _ _ => 1.7) 28 ++ fallFrames (fun _ _ => 1.7) 93
          ++ riseFrames (fun _ _ => 1.7) 9)
      = ⟨false, false, 1, 0.75, 1.56, 1.7⟩
    ∧ Reachable ⟨false, false, 1, 0.75, 1.56, 1.7⟩
    ∧ (⟨false, false, 1, 0.75, 1.56, 1.7⟩ : Renderer).failFlag = false
    ∧ -(0.75 : GLfloat) + 0.05 = 1.0 - 1.7
    ∧ ((1.0 : GLfloat) - 1.56 ≤ -0.5 ∧ (-0.5 : GLfloat) ≤ 1.5 - 1.56)
    ∧ (Draw (fun _ _ => 1.7) ⟨false, false, 1, 0.75, 1.56, 1.7⟩).1.failFlag = true := by
  have hr : Reachable ⟨false, false, 1, 0.75, 1.56, 1.7⟩ := ⟨_, _, _, run_to_touch.symm⟩
  exact ⟨run_to_touch, hr, rfl, by norm_num, by norm_num,
    (Draw_boundary (fun _ _ => 1.7) ⟨false, false, 1, 0.75, 1.56, 1.7⟩ hr rfl
      (by norm_num)).1 (by norm_num)⟩

/-! ## The failure latch -/

/-- C3: for every state the renderer can reach from its constructor and every
finite sequence of `NotifyTap` and `Draw` calls, once a `Draw` call has ended
with `failFlag = true`, every later `Draw` call also ends with
`failFlag = true`, with `down = 0` and `xMoveStep = 0`, and emits only the fail
marker (`LoadFail`; neither `LoadCircle` nor `LoadColumn` runs), whatever taps
are notified in between. -/
theorem failFlag_latch (s : Renderer) (hr : Reachable s) (pre post : List Event)
    (g0 g : GLfloat → GLfloat → GLfloat)
    (h : (run s (pre ++ [Event.draw g0])).failFlag = true) :
    (Draw g (run s (pre ++ [Event.draw g0] ++ post))).1.failFlag = true
    ∧ (Draw g (run s (pre ++ [Event.draw g0] ++ post))).1.down = 0
    ∧ (Draw g (run s (pre ++ [Event.draw g0] ++ post))).1.xMoveStep = 0
    ∧ (Draw g (run s (pre ++ [Event.draw g0] ++ post))).2
        = [Geometry.failMarker failVertexPositions] := by
  have hf : (run s (pre ++ [Event.draw g0] ++ post)).failFlag = true := by
    rw [run_append]; exact run_failFlag_true _ _ h
  have hp : (run s (pre ++ [Event.draw g0] ++ post)).mProgram ≠ 0 := by
    intro hp0
    have := (reachable_noProgram _ (reachable_run s hr _) hp0).1
    rw [hf] at this
    exact Bool.noConfusion this
  rw [Draw_fail g _ hp (Or.inl hf)]
  exact ⟨rfl, rfl, rfl, rfl⟩

theorem failFlag_latch_witness :
    Reachable (construct 1 (fun _ _ => 0))
    ∧ (run (construct 1 (fun _ _ => 0))
        (fallFrames (fun _ _ => 0) 121 ++ [Event.draw (fun _ _ => 0)])).failFlag = true
    ∧ (Draw (fun _ _ => 0.9)
        (run (construct 1 (fun _ _ => 0))
          (fallFrames (fun _ _ => 0) 121 ++ [Event.draw (fun _ _ => 0)]
            ++ [Event.tap, Event.draw (fun _ _ => 0.9), Event.tap]))).1.failFlag = true
    ∧ (Draw (fun _ _ => 0.9)
        (run (construct 1 (fun _ _ => 0))
          (fallFrames (fun _ _ => 0) 121 ++ [Event.draw (fun _ _ => 0)]
            ++ [Event.tap, Event.draw (fun _ _ => 0.9), Event.tap]))).1.down = 0
    ∧ (Draw (fun _ _ => 0.9)
        (run (construct 1 (fun _ _ => 0))
          (fallFrames (fun _ _ => 0) 121 ++ [Event.draw (fun _ _ => 0)]
            ++ [Event.tap, Event.draw (fun _ _ => 0.9), Event.tap]))).1.xMoveStep = 0
    ∧ (Draw (fun _ _ => 0.9)
        (run (construct 1 (fun _ _ => 0))
          (fallFrames (fun _ _ => 0) 121 ++ [Event.draw (fun _ _ => 0)]
            ++ [Event.tap, Event.draw (fun _ _ => 0.9), Event.tap]))).2
        = [Geometry.failMarker failVertexPositions] := by
  have h : (run (construct 1 (fun _ _ => 0))
      (fallFrames (fun _ _ => 0) 121 ++ [Event.draw (fun _ _ => 0)])).failFlag = true := by
    rw [run_append, run_to_drop]
    show (Draw (fun _ _ => 0) ⟨false, false, 1, 2.42, 1.452, 0⟩).1.failFlag = true
    rw [Draw_failFlag_iff _ _ (by decide) rfl, collides_iff]
    norm_num
  exact ⟨reachable_construct _ _, h,
    failFlag_latch (construct 1 (fun _ _ => 0)) (reachable_construct _ _)
      (fallFrames (fun _ _ => 0) 121) [Event.tap, Event.draw (fun _ _ => 0.9), Event.tap]
      (fun _ _ => 0) (fun _ _ => 0.9) h⟩

/-! ## Order of the collision test and the steps -/

theorem columnVertexPositions_LoadCircle (cx cy cz r : GLfloat) (s : Renderer) :
    columnVertexPositions (LoadCircle cx cy cz r s).1 = columnVertexPositions s := by
  unfold LoadCircle
  split <;> rfl

/-- C9, as stated, fails: `Draw` tests the members as they are at entry, not as
they are after this frame's steps. With a non-zero program handle, `down = 0`,
`randomHeight = 0` and `xMoveStep = 1.44` (the value after 120 frames) the
entry state does not collide, the state after this frame's steps
(`xMoveStep = 1.452`) does, and `Draw` does not latch. -/
theorem Draw_check_order_counterexample :
    (⟨false, false, 1, 0, 1.44, 0⟩ : Renderer).failFlag = false
    ∧ collides (advance (fun _ _ => 0.9) ⟨false, false, 1, 0, 1.44, 0⟩)
    ∧ (Draw (fun _ _ => 0.9) ⟨false, false, 1, 0, 1.44, 0⟩).1.failFlag = false := by
  refine ⟨rfl, ?_, ?_⟩
  · rw [collides_iff, advance_down, advance_xMoveStep, advance_randomHeight]; norm_num
  · have h : ¬ (Draw (fun _ _ => 0.9) ⟨false, false, 1, 0, 1.44, 0⟩).1.failFlag = true := by
      rw [Draw_failFlag_iff _ _ (by decide) rfl, collides_iff]; norm_num
    simpa using h

/-- C9, amended: in every `Draw` call that starts with a non-zero program
handle and `failFlag = false`, the collision test comes first and reads the
members as they are at entry: the call latches `failFlag` exactly when the
collision condition holds on the entry state. When it holds, `down` and
`xMoveStep` are reset to `0`, no step is applied and only the fail marker is
emitted. When it does not, the call emits the circle at `(-0.5, -down)` and
the column pair at `xMoveStep`/`randomHeight`, all taken from the entry state,
and only then applies this frame's `down` step (`-0.03` with `click` set,
else `+0.02`, clearing `click`) and `xMoveStep` step (`+0.012`, wrapping to
`0.01` with a new `randomHeight` at `2.5`). -/
theorem Draw_check_order (g : GLfloat → GLfloat → GLfloat) (s : Renderer)
    (hp : s.mProgram ≠ 0) (hf : s.failFlag = false) :
    ((Draw g s).1.failFlag = true ↔ collides s)
    ∧ (collides s →
        Draw g s = ({ s with failFlag := true, xMoveStep := 0, down := 0 },
          [Geometry.failMarker failVertexPositions]))
    ∧ (¬ collides s →
        Draw g s =
          ({ click := false, failFlag := false, mProgram := s.mProgram,
             down := if s.click = true then s.down - 0.03 else s.down + 0.02,
             xMoveStep := if s.xMoveStep + 0.012 ≥ 2.5 then 0.01 else s.xMoveStep + 0.012,
             randomHeight := if s.xMoveStep + 0.012 ≥ 2.5 then g 0.0 1.8 else s.randomHeight },
           [Geometry.circle (-0.5) (-s.down) 0.0 0.05,
            Geometry.columnPair (columnVertexPositions s)])) := by
  refine ⟨Draw_failFlag_iff g s hp hf, ?_, ?_⟩
  · intro hc
    rw [Draw_fail g s hp (Or.inr hc)]
  · intro hc
    rw [Draw_playing g s ⟨hp, hf, hc⟩, advance_eq, columnVertexPositions_LoadCircle, hf]

theorem Draw_check_order_witness :
    (⟨false, false, 1, 0, 1.44, 0⟩ : Renderer).mProgram ≠ 0
    ∧ (⟨false, false, 1, 0, 1.44, 0⟩ : Renderer).failFlag = false
    ∧ ¬ collides ⟨false, false, 1, 0, 1.44, 0⟩
    ∧ Draw (fun _ _ => 0.9) ⟨false, false, 1, 0, 1.44, 0⟩
        = (⟨false, false, 1, 0.02, 1.452, 0⟩,
           [Geometry.circle (-0.5) (-0) 0.0 0.05,
            Geometry.columnPair (columnVertexPositions ⟨false, false, 1, 0, 1.44, 0⟩)]) := by
  have hc : ¬ collides ⟨false, false, 1, 0, 1.44, 0⟩ := by
    rw [collides_iff]; norm_num
  refine ⟨by decide, rfl, hc, ?_⟩
  rw [(Draw_check_order (fun _ _ => 0.9) ⟨false, false, 1, 0, 1.44, 0⟩ (by decide) rfl).2.2 hc]
  norm_num

end Renderer
